import Mathlib

/-!
Verification of the track-matching and resilient-request engine of the
Beatport-Spotify repository (src/src/spotify_client.py, src/pipeline.py),
as a shallow embedding in Lean 4.  Python strings are modelled as Lean
`String` (a structure over `List Char`), HTTP traffic as an explicit
script of events consumed by an interpreter of `search_track`'s retry
loop, and exceptions as explicit outcome constructors.
-/

namespace Spotify

/-- Model of CPython's `str.lower` restricted to ASCII letters plus the
Latin-1 uppercase accented letters that occur in the data handled here;
all other characters are left unchanged. -/
def pyLowerChar (c : Char) : Char :=
  if 'A' ≤ c ∧ c ≤ 'Z' then Char.ofNat (c.toNat + 32)
  else if c = 'É' then 'é'
  else if c = 'È' then 'è'
  else if c = 'Ê' then 'ê'
  else if c = 'À' then 'à'
  else if c = 'Â' then 'â'
  else if c = 'Ç' then 'ç'
  else if c = 'Ô' then 'ô'
  else if c = 'Ö' then 'ö'
  else if c = 'Ü' then 'ü'
  else if c = 'Ñ' then 'ñ'
  else c

def pyLower (s : String) : String :=
  ⟨s.data.map pyLowerChar⟩

/-- Modelled from the spec: the third-party `unidecode` transliteration
library (not part of src/) "strips diacritics"; modelled as a character
table for the Latin-1 accented letters used here, identity elsewhere. -/
def unidecodeChar (c : Char) : Char :=
  if c = 'ç' then 'c'
  else if c = 'é' then 'e'
  else if c = 'è' then 'e'
  else if c = 'ê' then 'e'
  else if c = 'à' then 'a'
  else if c = 'â' then 'a'
  else if c = 'á' then 'a'
  else if c = 'ô' then 'o'
  else if c = 'ö' then 'o'
  else if c = 'ó' then 'o'
  else if c = 'ü' then 'u'
  else if c = 'ú' then 'u'
  else if c = 'í' then 'i'
  else if c = 'ñ' then 'n'
  else c

def unidecodeStr (s : String) : String :=
  ⟨s.data.map unidecodeChar⟩

/-- Python `s.split(", ")` on the character list: split on each
non-overlapping left-to-right occurrence of the two-character
separator comma-space.  `acc` holds the current piece reversed. -/
def splitCommaSpace : List Char → List Char → List (List Char)
  | [], acc => [acc.reverse]
  | [c], acc => [(c :: acc).reverse]
  | c1 :: c2 :: rest, acc =>
    if c1 = ',' ∧ c2 = ' ' then acc.reverse :: splitCommaSpace rest []
    else splitCommaSpace (c2 :: rest) (c1 :: acc)

/-- Python `s.split("feat")[0]`: the prefix of `s` before the first
occurrence of `"feat"`, or all of `s` when absent
(spotify_client.py line 225). -/
def takeBeforeFeat : List Char → List Char
  | [] => []
  | c :: rest =>
    if List.isPrefixOf ['f', 'e', 'a', 't'] (c :: rest) then []
    else c :: takeBeforeFeat rest

/-- The characters deleted by `str.maketrans("", "", ":/?#[]@!$&'()*+,;=")`
(spotify_client.py lines 221-223). -/
def limiterChars : List Char :=
  [':', '/', '?', '#', '[', ']', '@', '!', '$', '&', Char.ofNat 39,
    '(', ')', '*', '+', ',', ';', '=']

def removeLimiters (s : String) : String :=
  ⟨s.data.filter (fun c => !(limiterChars.contains c))⟩

/-- The sanitized title: punctuation removed, then everything from the
first "feat" on dropped, in the source's order of operations. -/
def sanitizeTitle (t : String) : String :=
  ⟨takeBeforeFeat (removeLimiters t).data⟩

/-- One (title, artist, year) tuple; `song_details` in the source, with
`year` the integer `song_details["year"].year`. -/
structure SongDetails where
  title : String
  artist : String
  year : Nat
deriving DecidableEq, Repr

/-- The search query string of spotify_client.py line 225:
`f"track:{title.translate(remove_limiters).split('feat')[0]} year:{year}"`. -/
def queryString (d : SongDetails) : String :=
  "track:" ++ sanitizeTitle d.title ++ " year:" ++ toString d.year

/-- One catalog search result (`item` in the source). -/
structure Candidate where
  id : String
  artists : List String
  url : String
deriving DecidableEq, Repr

/-- One parsed page of the search response body:
`json()["tracks"]["items"]` (entries may be JSON null, hence `Option`)
and `json()["tracks"]["next"]`. -/
structure Page where
  items : List (Option Candidate)
  nextUrl : Option String
deriving DecidableEq, Repr

/-- The query's artist set:
`set(song_details["artist"].lower().split(", "))`
(spotify_client.py lines 272-274). -/
def inputArtistSet (a : String) : List String :=
  (splitCommaSpace (pyLower a).data []).map (fun l => String.mk l)

/-- Whether one candidate matches: the intersection of the input artist
set with `{unidecode(name.lower()) | name in item["artists"]}` is
non-empty (spotify_client.py lines 258-279). -/
def itemMatch (inSet : List String) (c : Candidate) : Bool :=
  c.artists.any (fun n => inSet.contains (unidecodeStr (pyLower n)))

/-- A non-null candidate that does not match; used to describe prefixes
the scan walks past. -/
def itemOk (inSet : List String) : Option Candidate → Bool
  | none => false
  | some c => !(itemMatch inSet c)

/-- Result of the `for index, item in enumerate(items)` scan. -/
inductive PageScan where
  | abort
  | found (c : Candidate)
  | noMatch
deriving DecidableEq, Repr

/-- The candidate scan of spotify_client.py lines 256-281: a null item
raises TypeError, caught and turned into `return None` (abort); the
first matching item wins; otherwise no match. -/
def scanItems (inSet : List String) : List (Option Candidate) → PageScan
  | [] => .noMatch
  | none :: _ => .abort
  | some c :: rest =>
    if itemMatch inSet c then .found c else scanItems inSet rest

/-- An HTTP response as `search_track` observes it: the status code, the
parsed `retry-after` header when present, the parsed
`["tracks"]` body when the response parses as a search page
(`none` models the KeyError branch of lines 250-253), and the
`["access_token"]` field of a token-endpoint response. -/
structure Resp where
  status : Nat
  retryAfter : Option Nat
  page : Option Page
  newToken : Option String
deriving DecidableEq, Repr

/-- One scripted network interaction: either the request raises
ConnectTimeout / ReadTimeout / ConnectionError, or a response arrives. -/
inductive Event where
  | net
  | resp (r : Resp)
deriving DecidableEq, Repr

/-- A request issued by the client, as recorded in the trace. -/
inductive Req where
  | search (q tok : String)
  | nextPage (url tok : String)
  | tokenRefresh
deriving DecidableEq, Repr

/-- How one call of `search_track` ends.  `found`/`notFound` are the
`return` values, `fatal` is `raise SystemExit`, `uncaught` is an
exception escaping the function (network error during `_refesh_token`),
and `outOfScript` means the loop was still running when the scripted
events were exhausted. -/
inductive Outcome where
  | found (id : String)
  | notFound
  | fatal
  | uncaught
  | outOfScript
deriving DecidableEq, Repr

/-- Control position inside `search_track`: the top of the outer
`while retry_count < MAX_RETRIES` loop, the top of the inner
`while True` pagination loop holding the current parsed page, or inside
`_refesh_token` called from the outer / inner exception handler. -/
inductive Phase where
  | outer
  | inner (pg : Page)
  | refreshOuter
  | refreshInner (pg : Page)
deriving DecidableEq, Repr

/-- The outcome `search_track` reaches from the current control
position without issuing another request, when there is one: the
`while retry_count < MAX_RETRIES` guard failing returns the implicit
`None` of the function end; the inner loop returns on an empty item
list, on a null item (TypeError, lines 260-265), on a match
(lines 284-288), and on an exhausted `next` link (lines 290-295). -/
def phaseResult (d : SongDetails) (rc : Nat) (ph : Phase) : Option Outcome :=
  match ph with
  | .outer => if 10 ≤ rc then some .notFound else none
  | .inner pg =>
    if pg.items.isEmpty then some .notFound
    else
      match scanItems (inputArtistSet d.artist) pg.items with
      | .abort => some .notFound
      | .found c => some (.found c.id)
      | .noMatch =>
        match pg.nextUrl with
        | none => some .notFound
        | some _ => none
  | .refreshOuter => none
  | .refreshInner _ => none

/-- The request issued from a non-terminal control position: the search
GET (line 241), the next-page GET (line 298), or the token POST
(line 130). -/
def phaseReq (d : SongDetails) (tok : String) (ph : Phase) : Req :=
  match ph with
  | .outer => .search (queryString d) tok
  | .inner pg => .nextPage (pg.nextUrl.getD "") tok
  | .refreshOuter => .tokenRefresh
  | .refreshInner _ => .tokenRefresh

/-- Effect of one request's event: either `search_track` returns /
raises, or control moves on with possibly-updated token, retry count,
phase and recorded sleeps. -/
inductive Step where
  | halt (o : Outcome)
  | go (tok : String) (rc : Nat) (ph : Phase) (sleeps : List Nat)
deriving DecidableEq, Repr

/-- The branching of `search_track` on one response or network failure
(spotify_client.py lines 239-354): network failures increment
`retry_count`, sleep 5 and restart the outer loop; a 429 sleeps
`2 * int(headers.get("retry-after", 1))` and re-enters the same loop
without touching `retry_count`; a 401 moves into `_refesh_token`,
which on a non-200 token response leaves the token unchanged (lines
132-139); an unrecognized status in the outer loop is
`raise SystemExit`; a non-429/401 next-page response replaces the
current page (`song = temp`, line 318). -/
def phaseStep (tok : String) (rc : Nat) (ph : Phase) (e : Event) : Step :=
  match ph, e with
  | .outer, .net => .go tok (rc + 1) .outer [5]
  | .outer, .resp rsp =>
    if rsp.status = 200 then
      match rsp.page with
      | none => .halt .notFound
      | some pg => .go tok rc (.inner pg) []
    else if rsp.status = 429 then .go tok rc .outer [2 * rsp.retryAfter.getD 1]
    else if rsp.status = 401 then .go tok rc .refreshOuter []
    else if rsp.status = 500 then .go tok rc .outer [3]
    else .halt .fatal
  | .inner _, .net => .go tok (rc + 1) .outer [5]
  | .inner pg, .resp rsp =>
    if rsp.status = 429 then .go tok rc (.inner pg) [2 * rsp.retryAfter.getD 1]
    else if rsp.status = 401 then .go tok rc (.refreshInner pg) []
    else
      match rsp.page with
      | none => .halt .notFound
      | some pg2 => .go tok rc (.inner pg2) []
  | .refreshOuter, .net => .halt .uncaught
  | .refreshOuter, .resp rsp =>
    .go (if rsp.status = 200 then rsp.newToken.getD tok else tok) rc .outer []
  | .refreshInner _, .net => .halt .uncaught
  | .refreshInner pg, .resp rsp =>
    .go (if rsp.status = 200 then rsp.newToken.getD tok else tok) rc (.inner pg) []

/-- The interpreter of `search_track` (spotify_client.py lines
191-354), driven by the event script; it returns the outcome together
with the list of `time.sleep` durations and the list of requests
issued, in order.  `outOfScript` means the loop was still asking for
the next interaction when the script ran out. -/
def searchRun (d : SongDetails) (tok : String) (rc : Nat) (ph : Phase) :
    List Event → Outcome × List Nat × List Req
  | [] =>
    match phaseResult d rc ph with
    | some o => (o, [], [])
    | none => (.outOfScript, [], [phaseReq d tok ph])
  | e :: rest =>
    match phaseResult d rc ph with
    | some o => (o, [], [])
    | none =>
      match phaseStep tok rc ph e with
      | .halt o => (o, [], [phaseReq d tok ph])
      | .go tok2 rc2 ph2 slps =>
        let r := searchRun d tok2 rc2 ph2 rest
        (r.1, slps ++ r.2.1, phaseReq d tok ph :: r.2.2)

/-- Entry point of `search_track`: `retry_count = 0`, outer loop top. -/
def search_track (d : SongDetails) (tok : String) (script : List Event) :
    Outcome × List Nat × List Req :=
  searchRun d tok 0 Phase.outer script

example :
    search_track ⟨"Remember", "Philippe Petit", 2023⟩ "t" [] =
      (.outOfScript, [], [Req.search "track:Remember year:2023" "t"]) := rfl

theorem scanItems_found (inSet : List String) (pre post : List (Option Candidate)) (c : Candidate)
    (hpre : pre.all (itemOk inSet) = true) (hc : itemMatch inSet c = true) :
    scanItems inSet (pre ++ some c :: post) = .found c := by
  induction pre with
  | nil => simp [scanItems, hc]
  | cons it rest ih =>
    rw [List.all_cons, Bool.and_eq_true] at hpre
    cases it with
    | none => simp [itemOk] at hpre
    | some c2 =>
      have hm : itemMatch inSet c2 = false := by
        have := hpre.1
        simpa [itemOk] using this
      simpa [scanItems, hm] using ih hpre.2

theorem scanItems_abort (inSet : List String) (pre post : List (Option Candidate))
    (hpre : pre.all (itemOk inSet) = true) :
    scanItems inSet (pre ++ none :: post) = .abort := by
  induction pre with
  | nil => simp [scanItems]
  | cons it rest ih =>
    rw [List.all_cons, Bool.and_eq_true] at hpre
    cases it with
    | none => simp [itemOk] at hpre
    | some c2 =>
      have hm : itemMatch inSet c2 = false := by
        have := hpre.1
        simpa [itemOk] using this
      simpa [scanItems, hm] using ih hpre.2

theorem isEmpty_append_cons (pre post : List (Option Candidate)) (x : Option Candidate) :
    (pre ++ x :: post).isEmpty = false := by
  cases pre <;> rfl

theorem search_track_found_of_scan (d : SongDetails) (tok : String)
    (items : List (Option Candidate)) (nxt : Option String)
    (ra : Option Nat) (nt : Option String) (script : List Event) (c : Candidate)
    (hscan : scanItems (inputArtistSet d.artist) items = .found c)
    (hne : items.isEmpty = false) :
    search_track d tok (Event.resp ⟨200, ra, some ⟨items, nxt⟩, nt⟩ :: script) =
      (.found c.id, [], [Req.search (queryString d) tok]) := by
  have hinner : searchRun d tok 0 (Phase.inner ⟨items, nxt⟩) script =
      (.found c.id, [], []) := by
    cases script <;> simp [searchRun, phaseResult, hne, hscan]
  simp [search_track, searchRun, phaseResult, phaseStep, phaseReq, hinner]

theorem search_track_abort_of_scan (d : SongDetails) (tok : String)
    (items : List (Option Candidate)) (nxt : Option String)
    (ra : Option Nat) (nt : Option String) (script : List Event)
    (hscan : scanItems (inputArtistSet d.artist) items = .abort)
    (hne : items.isEmpty = false) :
    search_track d tok (Event.resp ⟨200, ra, some ⟨items, nxt⟩, nt⟩ :: script) =
      (.notFound, [], [Req.search (queryString d) tok]) := by
  have hinner : searchRun d tok 0 (Phase.inner ⟨items, nxt⟩) script =
      (.notFound, [], []) := by
    cases script <;> simp [searchRun, phaseResult, hne, hscan]
  simp [search_track, searchRun, phaseResult, phaseStep, phaseReq, hinner]

/-- C1 counterexample: the page's candidate at index 1 satisfies the
claim's intersection condition (its lowercased artist set meets the
query's lowercased comma-split artist set), yet `search_track` returns
`None` — the null object at index 0 aborts the scan, so the first
intersecting candidate does not win regardless of earlier candidates. -/
theorem search_track_first_match_null_cex :
    (inputArtistSet "Philippe Petit").contains (pyLower "Philippe Petit") = true
    ∧ search_track ⟨"Remember", "Philippe Petit", 2023⟩ "tok"
        [Event.resp ⟨200, none, some ⟨[none, some ⟨"trackB", ["Philippe Petit"], "urlB"⟩], none⟩, none⟩]
      = (.notFound, [], [Req.search "track:Remember year:2023" "tok"])
    ∧ (search_track ⟨"Remember", "Philippe Petit", 2023⟩ "tok"
        [Event.resp ⟨200, none, some ⟨[none, some ⟨"trackB", ["Philippe Petit"], "urlB"⟩], none⟩, none⟩]).1
      ≠ Outcome.found "trackB" :=
  ⟨by decide, rfl, by decide⟩

/-- C1 (amended): on a page where every candidate before the match is
non-null and non-matching, the first candidate whose lowercased,
diacritic-stripped artist-name set intersects the query's lowercased
comma-split artist set wins, whatever follows it on the page; no
further request is issued and no scoring occurs beyond first-found. -/
theorem search_track_first_match_wins (d : SongDetails) (tok : String)
    (pre post : List (Option Candidate)) (c : Candidate) (nxt : Option String)
    (ra : Option Nat) (nt : Option String) (script : List Event)
    (hpre : pre.all (itemOk (inputArtistSet d.artist)) = true)
    (hc : itemMatch (inputArtistSet d.artist) c = true) :
    search_track d tok (Event.resp ⟨200, ra, some ⟨pre ++ some c :: post, nxt⟩, nt⟩ :: script) =
      (.found c.id, [], [Req.search (queryString d) tok]) :=
  search_track_found_of_scan d tok (pre ++ some c :: post) nxt ra nt script c
    (scanItems_found (inputArtistSet d.artist) pre post c hpre hc)
    (isEmpty_append_cons pre post (some c))

/-- Witness for C1 (amended): the spec's own example — the query artist
"Philippe Petit" matches the candidate at index 2 and its id is
returned, regardless of the two earlier non-matching candidates. -/
theorem search_track_first_match_wins_witness :
    search_track ⟨"Remember", "Philippe Petit", 2023⟩ "tok"
      [Event.resp ⟨200, none,
        some ⟨[some ⟨"id0", ["Other One"], "u0"⟩, some ⟨"id1", ["Another"], "u1"⟩] ++
          some ⟨"id2", ["Philippe Petit"], "u2"⟩ :: [], none⟩, none⟩] =
      (.found "id2", [], [Req.search (queryString ⟨"Remember", "Philippe Petit", 2023⟩) "tok"]) :=
  search_track_first_match_wins ⟨"Remember", "Philippe Petit", 2023⟩ "tok"
    [some ⟨"id0", ["Other One"], "u0"⟩, some ⟨"id1", ["Another"], "u1"⟩] []
    ⟨"id2", ["Philippe Petit"], "u2"⟩ none none none [] (by decide) (by decide)

/-- C2 counterexample: the page holds a non-matching candidate, then a
null object, then a matching candidate; the claim says the null one is
skipped and the search continues, but `search_track` returns `None`
for the whole query at the null object. -/
theorem search_track_null_skip_cex :
    itemMatch (inputArtistSet "Dimi Angelis") ⟨"idZ", ["Dimi Angelis"], "uZ"⟩ = true
    ∧ search_track ⟨"Exile", "Dimi Angelis", 2023⟩ "tok"
        [Event.resp ⟨200, none, some ⟨[some ⟨"idY", ["Somebody Else"], "uY"⟩, none,
            some ⟨"idZ", ["Dimi Angelis"], "uZ"⟩], none⟩, none⟩] =
      (.notFound, [], [Req.search "track:Exile year:2023" "tok"]) :=
  ⟨by decide, rfl⟩

/-- C2 (amended): a candidate with a null artist list makes the Matcher
return notFound for the whole query immediately and without raising —
it is not skipped, later candidates are not checked and no further
request is issued. -/
theorem search_track_null_aborts (d : SongDetails) (tok : String)
    (pre post : List (Option Candidate)) (nxt : Option String)
    (ra : Option Nat) (nt : Option String) (script : List Event)
    (hpre : pre.all (itemOk (inputArtistSet d.artist)) = true) :
    search_track d tok (Event.resp ⟨200, ra, some ⟨pre ++ none :: post, nxt⟩, nt⟩ :: script) =
      (.notFound, [], [Req.search (queryString d) tok]) :=
  search_track_abort_of_scan d tok (pre ++ none :: post) nxt ra nt script
    (scanItems_abort (inputArtistSet d.artist) pre post hpre)
    (isEmpty_append_cons pre post none)

/-- Witness for C2 (amended): a null object after one non-matching
candidate ends the search as notFound even though a matching candidate
follows it. -/
theorem search_track_null_aborts_witness :
    search_track ⟨"Reset", "Decka", 2023⟩ "tok"
      [Event.resp ⟨200, none,
        some ⟨[some ⟨"idA", ["Someone"], "uA"⟩] ++
          none :: [some ⟨"idB", ["Decka"], "uB"⟩], some "nextUrl"⟩, none⟩] =
      (.notFound, [], [Req.search (queryString ⟨"Reset", "Decka", 2023⟩) "tok"]) :=
  search_track_null_aborts ⟨"Reset", "Decka", 2023⟩ "tok"
    [some ⟨"idA", ["Someone"], "uA"⟩] [some ⟨"idB", ["Decka"], "uB"⟩]
    (some "nextUrl") none none [] (by decide)

/-- C5 counterexample: query artist "François K" and candidate artist
"francois k" are equal after lowercasing and diacritic-stripping, yet
the Matcher does not count them as matching: the query side is only
lowercased, never diacritic-stripped, so the search returns notFound. -/
theorem artist_match_query_diacritics_cex :
    unidecodeStr (pyLower "François K") = unidecodeStr (pyLower "francois k")
    ∧ search_track ⟨"Title", "François K", 2023⟩ "tok"
        [Event.resp ⟨200, none, some ⟨[some ⟨"idF", ["francois k"], "uF"⟩], none⟩, none⟩] =
      (.notFound, [], [Req.search "track:Title year:2023" "tok"]) :=
  ⟨by decide, rfl⟩

/-- C5 (amended): matching is case-insensitive on both sides but
diacritic-insensitive only on the candidate side: any candidate whose
diacritic-stripped lowercased name lies in the query's lowercased
comma-split artist set is matched and its id returned. -/
theorem artist_match_candidate_side (title a : String) (year : Nat)
    (n id url tok : String) (nxt : Option String) (ra : Option Nat) (nt : Option String)
    (script : List Event)
    (h : (inputArtistSet a).contains (unidecodeStr (pyLower n)) = true) :
    search_track ⟨title, a, year⟩ tok
        (Event.resp ⟨200, ra, some ⟨[some ⟨id, [n], url⟩], nxt⟩, nt⟩ :: script) =
      (.found id, [], [Req.search (queryString ⟨title, a, year⟩) tok]) := by
  have hm : itemMatch (inputArtistSet a) (Candidate.mk id [n] url) = true := by
    simpa [itemMatch] using h
  exact search_track_found_of_scan ⟨title, a, year⟩ tok [some ⟨id, [n], url⟩] nxt ra nt script
    ⟨id, [n], url⟩ (by simp [scanItems, hm]) rfl

/-- Witness for C5 (amended): candidate artist "François K" matches
query artist "francois k" (candidate-side diacritic stripping). -/
theorem artist_match_candidate_side_witness :
    search_track ⟨"Title", "francois k", 2023⟩ "tok"
      [Event.resp ⟨200, none, some ⟨[some ⟨"idF", ["François K"], "uF"⟩], none⟩, none⟩] =
      (.found "idF", [], [Req.search (queryString ⟨"Title", "francois k", 2023⟩) "tok"]) :=
  artist_match_candidate_side "Title" "francois k" 2023 "François K" "idF" "uF" "tok"
    none none none [] (by decide)

/-- A script of `n` cycles in which the search GET gets a 401 and the
following token-refresh POST fails with a 400. -/
def badScript : Nat → List Event
  | 0 => []
  | n + 1 =>
    Event.resp ⟨401, none, none, none⟩ :: Event.resp ⟨400, none, none, none⟩ :: badScript n

/-- The requests `search_track` issues over `badScript n`: the same
search request with the same stale token before each cycle, and once
more after the last failed refresh. -/
def badReqs (d : SongDetails) (tok : String) : Nat → List Req
  | 0 => [Req.search (queryString d) tok]
  | n + 1 => Req.search (queryString d) tok :: Req.tokenRefresh :: badReqs d tok n

theorem searchRun_refresh_failure (d : SongDetails) (tok : String) :
    ∀ n : Nat, searchRun d tok 0 Phase.outer (badScript n) =
      (.outOfScript, [], badReqs d tok n)
  | 0 => by simp [searchRun, badScript, badReqs, phaseResult, phaseReq]
  | n + 1 => by
    have ih := searchRun_refresh_failure d tok n
    simp [searchRun, badScript, badReqs, phaseResult, phaseStep, phaseReq, ih]

/-- C3: when the catalog keeps answering 401 and the token endpoint
keeps answering non-200, `search_track` never terminates: after any
number of 401/failed-refresh cycles it is still looping, re-issuing
the identical search request with the same stale access token
(`_refesh_token` silently ignores a non-200 token response, lines
132-139, and `retry_count` is never incremented on this path). -/
theorem search_track_refresh_failure_loops (d : SongDetails) (tok : String) (n : Nat) :
    search_track d tok (badScript n) = (.outOfScript, [], badReqs d tok n) :=
  searchRun_refresh_failure d tok n

theorem searchRun_net_exhaust (d : SongDetails) (tok : String) (script : List Event) :
    ∀ m rc : Nat, rc + m = 10 →
      searchRun d tok rc Phase.outer (List.replicate m Event.net ++ script) =
        (.notFound, List.replicate m 5, List.replicate m (Req.search (queryString d) tok))
  | 0, rc, h => by
    have hrc : rc = 10 := by omega
    subst hrc
    cases script <;> simp [searchRun, phaseResult]
  | m + 1, rc, h => by
    have hlt : ¬ 10 ≤ rc := by omega
    have ih := searchRun_net_exhaust d tok script m (rc + 1) (by omega)
    simp [List.replicate_succ, searchRun, phaseResult, phaseStep, phaseReq, hlt, ih]

/-- C4: ten consecutive transient network failures each sleep a fixed 5
seconds and increment the retry counter; on reaching the ceiling of
`MAX_RETRIES = 10` attempts, the `while` loop exits and `search_track`
returns the implicit `None` — the ordinary notFound value, not a fatal
error — whatever the script holds next. -/
theorem search_track_retry_ceiling_returns_none (d : SongDetails) (tok : String)
    (script : List Event) :
    search_track d tok (List.replicate 10 Event.net ++ script) =
      (.notFound, List.replicate 10 5, List.replicate 10 (Req.search (queryString d) tok)) :=
  searchRun_net_exhaust d tok script 10 0 rfl

theorem searchRun_rate_limited (d : SongDetails) (tok : String) (s : Nat)
    (c : Candidate) (nxt : Option String)
    (hc : itemMatch (inputArtistSet d.artist) c = true) :
    ∀ n : Nat, searchRun d tok 0 Phase.outer
        (List.replicate n (Event.resp ⟨429, some s, none, none⟩) ++
          [Event.resp ⟨200, none, some ⟨[some c], nxt⟩, none⟩]) =
      (.found c.id, List.replicate n (2 * s),
        List.replicate (n + 1) (Req.search (queryString d) tok))
  | 0 => by
    have hscan : scanItems (inputArtistSet d.artist) [some c] = .found c := by
      simp [scanItems, hc]
    simp [searchRun, phaseResult, phaseStep, phaseReq]
    rw [hscan]
    exact ⟨rfl, rfl, rfl⟩
  | n + 1 => by
    have ih := searchRun_rate_limited d tok s c nxt hc n
    simp [List.replicate_succ, searchRun, phaseResult, phaseStep, phaseReq, ih]

/-- C6: for every number `n` of consecutive 429 responses carrying a
retry-after hint of `s` seconds, the client sleeps exactly `2 * s`
after each and re-issues the identical search request with the same
token; the rate-limit retries are unbounded — they never touch the
10-attempt network-failure counter, so the match still succeeds after
arbitrarily many 429s. -/
theorem search_track_rate_limit_backoff (d : SongDetails) (tok : String) (s : Nat)
    (c : Candidate) (nxt : Option String) (n : Nat)
    (hc : itemMatch (inputArtistSet d.artist) c = true) :
    search_track d tok
        (List.replicate n (Event.resp ⟨429, some s, none, none⟩) ++
          [Event.resp ⟨200, none, some ⟨[some c], nxt⟩, none⟩]) =
      (.found c.id, List.replicate n (2 * s),
        List.replicate (n + 1) (Req.search (queryString d) tok)) :=
  searchRun_rate_limited d tok s c nxt hc n

/-- Witness for C6: a single 429 with retry-after 3 sleeps exactly 6
seconds, then the identical request is retried and the match found. -/
theorem search_track_rate_limit_backoff_witness :
    search_track ⟨"Igman", "Sev Dah", 2023⟩ "tok"
        (List.replicate 1 (Event.resp ⟨429, some 3, none, none⟩) ++
          [Event.resp ⟨200, none, some ⟨[some ⟨"idS", ["Sev Dah"], "uS"⟩], none⟩, none⟩]) =
      (.found "idS", List.replicate 1 (2 * 3),
        List.replicate 2 (Req.search (queryString ⟨"Igman", "Sev Dah", 2023⟩) "tok")) :=
  search_track_rate_limit_backoff ⟨"Igman", "Sev Dah", 2023⟩ "tok" 3
    ⟨"idS", ["Sev Dah"], "uS"⟩ none 1 (by decide)

/-- C7: the catalog query string is built from the sanitized title and
the release year only — it is invariant under the query's artist
field, it is exactly the sanitized title and year in the source's
format, and a "feat." suffix of the title is dropped by the
sanitizer. -/
theorem query_string_title_year_only :
    (∀ (t a1 a2 : String) (y : Nat), queryString ⟨t, a1, y⟩ = queryString ⟨t, a2, y⟩)
    ∧ (∀ d : SongDetails,
        queryString d = "track:" ++ sanitizeTitle d.title ++ " year:" ++ toString d.year)
    ∧ sanitizeTitle "Song feat. X (Remix)" = "Song " :=
  ⟨fun t a1 a2 y => rfl, fun d => rfl, by decide⟩

/-- One element of the 200 response's `audio_features` array: the ten
fields `get_track_features` copies out (spotify_client.py lines
428-439) plus response keys it ignores (`track_id`, `uri`). -/
structure RawFeature where
  acousticness : Rat
  danceability : Rat
  energy : Rat
  instrumentalness : Rat
  liveness : Rat
  loudness : Rat
  speechiness : Rat
  tempo : Rat
  time_signature : Int
  valence : Rat
  track_id : String
  uri : String
deriving DecidableEq, Repr

/-- The `features_dict` the generator yields for one non-null entry. -/
structure FeaturesDict where
  acousticness : Rat
  danceability : Rat
  energy : Rat
  instrumentalness : Rat
  liveness : Rat
  loudness : Rat
  speechiness : Rat
  tempo : Rat
  time_signature : Int
  valence : Rat
deriving DecidableEq, Repr

def extractFeatures (f : RawFeature) : FeaturesDict :=
  ⟨f.acousticness, f.danceability, f.energy, f.instrumentalness, f.liveness,
    f.loudness, f.speechiness, f.tempo, f.time_signature, f.valence⟩

/-- One yielded value: the ten-field dict, or the empty dict `{}` for a
null entry. -/
inductive FeatOut where
  | record (f : FeaturesDict)
  | emptyDict
deriving DecidableEq, Repr

def featOutOf : Option RawFeature → FeatOut
  | some f => .record (extractFeatures f)
  | none => .emptyDict

/-- The generator loop of `get_track_features` on a 200 response
(spotify_client.py lines 424-443): one yield per element of the
response array in order, `{}` for null elements; every branch yields,
so no element raises. -/
def get_track_features : List (Option RawFeature) → List FeatOut
  | [] => []
  | some f :: rest => .record (extractFeatures f) :: get_track_features rest
  | none :: rest => .emptyDict :: get_track_features rest

theorem get_track_features_eq_map (resp : List (Option RawFeature)) :
    get_track_features resp = resp.map featOutOf := by
  induction resp with
  | nil => rfl
  | cons o rest ih => cases o <;> simp [get_track_features, featOutOf, ih]

/-- C8: on a 200 feature-batch response carrying one entry per
requested id, `get_track_features` yields exactly one record per input
id, position `i` of the output is exactly the mapped position `i` of
the response (so input order is preserved and a null entry yields the
empty dict `{}`), and the function is total — no missing-feature entry
raises. -/
theorem get_track_features_order (ids : List String) (resp : List (Option RawFeature))
    (i : Nat) (h : resp.length = ids.length) :
    (get_track_features resp).length = ids.length
    ∧ (get_track_features resp)[i]? = (resp[i]?).map featOutOf := by
  constructor
  · rw [get_track_features_eq_map, List.length_map, h]
  · rw [get_track_features_eq_map, List.getElem?_map]

def sampleFeatureA : RawFeature :=
  ⟨(1 : Rat) / 2, 1, 0, 0, 0, -5, 0, 128, 4, 1, "A", "uriA"⟩

def sampleFeatureC : RawFeature :=
  ⟨(1 : Rat) / 4, 0, 1, 1, 0, -7, 0, 140, 3, 0, "C", "uriC"⟩

/-- Witness for C8: ids [A, B, C] with no features for B yield
[featuresA, {}, featuresC]; position 1 is the empty dict. -/
theorem get_track_features_order_witness :
    (get_track_features [some sampleFeatureA, none, some sampleFeatureC]).length =
      (["A", "B", "C"] : List String).length
    ∧ (get_track_features [some sampleFeatureA, none, some sampleFeatureC])[1]? =
      (([some sampleFeatureA, none, some sampleFeatureC] : List (Option RawFeature))[1]?).map featOutOf :=
  get_track_features_order ["A", "B", "C"] [some sampleFeatureA, none, some sampleFeatureC] 1 rfl

inductive PyErr where
  | valueError
deriving DecidableEq, Repr

/-- Modelled from the spec: `random.sample(population, k)` of the
Python standard library (not part of src/) raises ValueError when the
sample size exceeds the population size; the selection itself is
modelled as the first `k` elements, since only the error contract and
the sample size matter here. -/
def randomSample (l : List String) (k : Nat) : Except PyErr (List String) :=
  if l.length < k then .error .valueError else .ok (l.take k)

/-- How `get_recommendations` ends: a list of recommended ids on 200,
the implicit `None` after the 429 branch, `raise SystemExit`
otherwise, or the ValueError escaping from `random.sample`. -/
inductive RecoResult where
  | ok (ids : List String)
  | noneReturn
  | fatal
  | valueErr
deriving DecidableEq, Repr

/-- `get_recommendations` (spotify_client.py lines 473-512): samples
exactly 5 seed ids as its first statement, then issues one GET whose
handling depends on the status: 200 collects the response's track ids,
429 prints and falls off the function end, anything else raises
SystemExit.  The second component lists the (market, seed set) pairs
of the requests issued, so an empty list means no catalog request was
made. -/
def get_recommendations (market : String) (track_id_list : List String)
    (status : Nat) (respIds : List String) : RecoResult × List (String × List String) :=
  match randomSample track_id_list 5 with
  | .error _ => (.valueErr, [])
  | .ok seeds =>
    if status = 200 then (.ok respIds, [(market, seeds)])
    else if status = 429 then (.noneReturn, [(market, seeds)])
    else (.fatal, [(market, seeds)])

/-- C10: a call with fewer than 5 ids raises ValueError out of
`random.sample(track_id_list, 5)` before any catalog request is
issued, and never returns a recommendation list. -/
theorem get_recommendations_needs_five_seeds (market : String) (ids : List String)
    (status : Nat) (respIds : List String) (h : ids.length < 5) :
    get_recommendations market ids status respIds = (.valueErr, [])
    ∧ randomSample ids 5 = .error .valueError := by
  have hs : randomSample ids 5 = .error .valueError := by simp [randomSample, h]
  exact ⟨by simp [get_recommendations, hs], hs⟩

/-- Witness for C10: three ids raise ValueError with no request issued
even though the scripted response would have been a 200. -/
theorem get_recommendations_needs_five_seeds_witness :
    get_recommendations "PH" ["a", "b", "c"] 200 ["r1"] = (.valueErr, [])
    ∧ randomSample ["a", "b", "c"] 5 = .error .valueError :=
  get_recommendations_needs_five_seeds "PH" ["a", "b", "c"] 200 ["r1"] (by decide)

end Spotify
